import Mathlib

set_option maxHeartbeats 1000000

/-!
Verification of the provider-agnostic chat adapter (backend llm service and
ai-config service). The TypeScript source is shallowly embedded: sessions are
explicit state (a list of registered sessions in insertion order, modelling the
JS Map value iteration order), wall-clock reads and provider transports are
supplied by an environment record, and base64-to-utf8 decoding of document
attachments (a Node Buffer library call) is an explicit function parameter.
-/

namespace December

/-- Role of a chat message, from the Message interface. -/
inductive Role where
  | user
  | assistant
deriving DecidableEq, Repr

/-- Attachment type union, from the Attachment interface. -/
inductive AttachmentType where
  | image
  | document
deriving DecidableEq, Repr

/-- Attachment record: base64 data, original name, mime type, size. -/
structure Attachment where
  type : AttachmentType
  data : String
  name : String
  mimeType : String
  size : Nat
deriving DecidableEq, Repr

/-- Message record. The attachments field is optional, as in the source,
where it is set only when the attachment list is non-empty. -/
structure Message where
  id : String
  role : Role
  content : String
  timestamp : String
  attachments : Option (List Attachment)
deriving DecidableEq, Repr

/-- ChatSession record. -/
structure ChatSession where
  id : String
  containerId : String
  messages : List Message
  createdAt : String
  updatedAt : String
deriving DecidableEq, Repr

/-- The session registry: the values of the chatSessions Map in insertion
order. -/
abbrev Store := List ChatSession

/-- OpenAI-compatible content part, as produced by buildMessageContent. -/
inductive OpenAIPart where
  | text (t : String)
  | imageUrl (url : String)
deriving DecidableEq, Repr

/-- Anthropic content part, as produced by buildAnthropicContent. -/
inductive AnthropicPart where
  | text (t : String)
  | image (mediaType : String) (data : String)
deriving DecidableEq, Repr

/-- Gemini content part, as produced by buildGeminiParts. -/
inductive GeminiPart where
  | text (t : String)
  | inlineData (mimeType : String) (data : String)
deriving DecidableEq, Repr

/-- Whether a Gemini part is a plain text part. -/
def GeminiPart.isText : GeminiPart → Bool
  | .text _ => true
  | .inlineData _ _ => false

/-- The text block spliced in for a document attachment. In the source this is
the template literal with a leading blank line:
two newline characters, then the labeled, decoded document content. -/
def documentText (decode : String → String) (a : Attachment) : String :=
  "\n\nDocument \"" ++ a.name ++ "\" content:\n" ++ decode a.data

/-- buildMessageContent from the llm service: the primary text part, then one
part per attachment, images as data-URI image parts and documents decoded and
inlined as text parts. -/
def buildMessageContent (decode : String → String) (message : String)
    (attachments : List Attachment) : List OpenAIPart :=
  OpenAIPart.text message ::
    attachments.map (fun a =>
      match a.type with
      | .image => OpenAIPart.imageUrl ("data:" ++ a.mimeType ++ ";base64," ++ a.data)
      | .document => OpenAIPart.text (documentText decode a))

/-- buildAnthropicContent from the llm service. -/
def buildAnthropicContent (decode : String → String) (message : String)
    (attachments : List Attachment) : List AnthropicPart :=
  AnthropicPart.text message ::
    attachments.map (fun a =>
      match a.type with
      | .image => AnthropicPart.image a.mimeType a.data
      | .document => AnthropicPart.text (documentText decode a))

/-- buildGeminiParts from the llm service. -/
def buildGeminiParts (decode : String → String) (message : String)
    (attachments : List Attachment) : List GeminiPart :=
  GeminiPart.text message ::
    attachments.map (fun a =>
      match a.type with
      | .image => GeminiPart.inlineData a.mimeType a.data
      | .document => GeminiPart.text (documentText decode a))

/-- A concrete document attachment whose base64 data decodes to "hi". -/
def docAttachment0 : Attachment :=
  { type := .document, data := "aGk=", name := "d.txt", mimeType := "text/plain", size := 2 }

/-- Claim C1 as stated is false: the inlined document text part is not exactly
the bare label template; the source prefixes it with two newline characters.
At message "m" with a single document attachment named "d.txt" decoding to
"hi", the part immediately after the primary text part differs from the bare
template for all three providers. -/
theorem buildContent_document_counterexample :
    ¬ ((buildMessageContent (fun _ => "hi") "m" [docAttachment0])[1]? =
         some (OpenAIPart.text "Document \"d.txt\" content:\nhi") ∧
       (buildAnthropicContent (fun _ => "hi") "m" [docAttachment0])[1]? =
         some (AnthropicPart.text "Document \"d.txt\" content:\nhi") ∧
       (buildGeminiParts (fun _ => "hi") "m" [docAttachment0])[1]? =
         some (GeminiPart.text "Document \"d.txt\" content:\nhi")) := by
  decide

/-- Claim C1 (amended): for every message and attachment list, the normalized
content for each of the three providers starts with the primary text part, and
the attachment at index i contributes exactly the part at index i + 1; when
that attachment is a document it is a text part holding two newline characters
followed by the label and the decoded utf-8 content, never a binary or file
part. It sits immediately after the primary text part exactly when the
document is the first attachment. -/
theorem document_attachment_inlined (decode : String → String) (message : String)
    (attachments : List Attachment) (i : Nat) (a : Attachment)
    (ha : attachments[i]? = some a) (hdoc : a.type = .document) :
    (buildMessageContent decode message attachments)[0]? =
      some (OpenAIPart.text message) ∧
    (buildMessageContent decode message attachments)[i + 1]? =
      some (OpenAIPart.text (documentText decode a)) ∧
    (buildAnthropicContent decode message attachments)[0]? =
      some (AnthropicPart.text message) ∧
    (buildAnthropicContent decode message attachments)[i + 1]? =
      some (AnthropicPart.text (documentText decode a)) ∧
    (buildGeminiParts decode message attachments)[0]? =
      some (GeminiPart.text message) ∧
    (buildGeminiParts decode message attachments)[i + 1]? =
      some (GeminiPart.text (documentText decode a)) := by
  refine ⟨?_, ?_, ?_, ?_, ?_, ?_⟩ <;>
    simp [buildMessageContent, buildAnthropicContent, buildGeminiParts,
      List.getElem?_cons_succ, List.getElem?_map, ha, hdoc]

/-- Witness for the amended C1 at a concrete input. -/
theorem document_attachment_inlined_witness :
    (buildMessageContent (fun _ => "hi") "m" [docAttachment0])[0]? =
      some (OpenAIPart.text "m") ∧
    (buildMessageContent (fun _ => "hi") "m" [docAttachment0])[0 + 1]? =
      some (OpenAIPart.text (documentText (fun _ => "hi") docAttachment0)) ∧
    (buildAnthropicContent (fun _ => "hi") "m" [docAttachment0])[0]? =
      some (AnthropicPart.text "m") ∧
    (buildAnthropicContent (fun _ => "hi") "m" [docAttachment0])[0 + 1]? =
      some (AnthropicPart.text (documentText (fun _ => "hi") docAttachment0)) ∧
    (buildGeminiParts (fun _ => "hi") "m" [docAttachment0])[0]? =
      some (GeminiPart.text "m") ∧
    (buildGeminiParts (fun _ => "hi") "m" [docAttachment0])[0 + 1]? =
      some (GeminiPart.text (documentText (fun _ => "hi") docAttachment0)) :=
  document_attachment_inlined (fun _ => "hi") "m" [docAttachment0] 0 docAttachment0
    (by decide) (by decide)

/-- Gemini contents entry: role and part list. -/
structure GeminiContent where
  role : String
  parts : List GeminiPart
deriving DecidableEq, Repr

/-- toGeminiHistory from the llm service: assistant becomes the model role;
user messages that carry an attachments field are normalized with
buildGeminiParts, everything else becomes a single plain text part. -/
def toGeminiHistory (decode : String → String) (messages : List Message) :
    List GeminiContent :=
  messages.map (fun msg =>
    { role := if msg.role = .assistant then "model" else "user",
      parts :=
        match msg.role, msg.attachments with
        | .user, some atts => buildGeminiParts decode msg.content atts
        | _, _ => [GeminiPart.text msg.content] })

/-- The contents array of the Gemini request built inside sendMessage: the
mapped history of every session message except the just-appended one, followed
by a separate user entry built from the just-appended user message. -/
def geminiRequestContents (decode : String → String) (messages : List Message)
    (userMsg : Message) : List GeminiContent :=
  toGeminiHistory decode messages.dropLast ++
    [{ role := "user",
       parts := buildGeminiParts decode userMsg.content (userMsg.attachments.getD []) }]

/-- A concrete image attachment. -/
def imageAttachment0 : Attachment :=
  { type := .image, data := "xyz", name := "p.png", mimeType := "image/png", size := 3 }

/-- A prior user turn that carries an image attachment. -/
def priorUserMessage0 : Message :=
  { id := "user-1", role := .user, content := "c", timestamp := "t1",
    attachments := some [imageAttachment0] }

/-- The in-flight user turn for the Gemini counterexample. -/
def newUserMessage0 : Message :=
  { id := "user-2", role := .user, content := "n", timestamp := "t2",
    attachments := none }

/-- A concrete assistant message. -/
def assistantMessage0 : Message :=
  { id := "assistant-1", role := .assistant, content := "a", timestamp := "t3",
    attachments := none }

/-- Claim C3 as stated is false: the mapped prior history is not always plain
text parts only. A prior user turn carrying an image attachment is normalized
by buildGeminiParts inside toGeminiHistory, so the mapped history contains an
inline-data part. -/
theorem gemini_history_counterexample :
    ¬ (∀ c ∈ (geminiRequestContents (fun s => s)
          [priorUserMessage0, newUserMessage0] newUserMessage0).dropLast,
        ∀ p ∈ c.parts, p.isText = true) := by
  decide

/-- Claim C3 (amended): in the Gemini path of sendMessage the assistant role
is renamed to the model role in the mapped history and the in-flight user
message is appended as a separate final contents entry rather than being part
of the mapped history; but the mapped prior history applies the same
attachment normalization as the final turn: a prior user message with an
attachments field maps to buildGeminiParts of its content and attachments,
and only assistant messages and attachment-free user messages map to a single
plain text part. -/
theorem gemini_request_mapping (decode : String → String) (messages : List Message)
    (userMsg : Message) (i : Nat) (m : Message)
    (hm : messages.dropLast[i]? = some m) :
    (geminiRequestContents decode messages userMsg)[i]? =
      some { role := if m.role = .assistant then "model" else "user",
             parts :=
               match m.role, m.attachments with
               | .user, some atts => buildGeminiParts decode m.content atts
               | _, _ => [GeminiPart.text m.content] } ∧
    (geminiRequestContents decode messages userMsg).getLast? =
      some { role := "user",
             parts := buildGeminiParts decode userMsg.content (userMsg.attachments.getD []) } ∧
    (geminiRequestContents decode messages userMsg).length =
      messages.dropLast.length + 1 := by
  have hlt : i < messages.dropLast.length := by
    by_contra hge
    rw [List.getElem?_eq_none (Nat.le_of_not_lt hge)] at hm
    exact Option.noConfusion hm
  refine ⟨?_, ?_, ?_⟩
  · rw [geminiRequestContents, List.getElem?_append_left
      (by simpa [toGeminiHistory] using hlt), toGeminiHistory, List.getElem?_map, hm,
      Option.map_some']
  · simp [geminiRequestContents]
  · simp [geminiRequestContents, toGeminiHistory]

/-- Witness for the amended C3 at a concrete input: a two-message session
whose first (prior) message is an assistant turn. -/
theorem gemini_request_mapping_witness :
    (geminiRequestContents (fun s => s) [assistantMessage0, newUserMessage0]
        newUserMessage0)[0]? =
      some { role := if assistantMessage0.role = .assistant then "model" else "user",
             parts :=
               match assistantMessage0.role, assistantMessage0.attachments with
               | .user, some atts =>
                 buildGeminiParts (fun s => s) assistantMessage0.content atts
               | _, _ => [GeminiPart.text assistantMessage0.content] } ∧
    (geminiRequestContents (fun s => s) [assistantMessage0, newUserMessage0]
        newUserMessage0).getLast? =
      some { role := "user",
             parts := buildGeminiParts (fun s => s) newUserMessage0.content
               (newUserMessage0.attachments.getD []) } ∧
    (geminiRequestContents (fun s => s) [assistantMessage0, newUserMessage0]
        newUserMessage0).length =
      ([assistantMessage0, newUserMessage0] : List Message).dropLast.length + 1 :=
  gemini_request_mapping (fun s => s) [assistantMessage0, newUserMessage0]
    newUserMessage0 0 assistantMessage0 (by decide)

/-- Map-faithful insertion into the registry: replace in place when the id is
already registered (a JS Map set keeps the insertion position), append at the
end otherwise. -/
def storeSet (store : Store) (sess : ChatSession) : Store :=
  if store.any (fun s => s.id = sess.id) then
    store.map (fun s => if s.id = sess.id then sess else s)
  else
    store ++ [sess]

/-- Lookup of a session by id, as in getChatSession. -/
def storeGet (store : Store) (sessionId : String) : Option ChatSession :=
  store.find? (fun s => s.id = sessionId)

/-- getOrCreateChatSession from the llm service: return the first registered
session whose containerId matches; otherwise create, register and return a new
empty session whose id derives from the container id and the clock. -/
def getOrCreateChatSession (now : Nat) (ts : String) (containerId : String)
    (store : Store) : ChatSession × Store :=
  match store.find? (fun s => s.containerId = containerId) with
  | some s => (s, store)
  | none =>
    let session : ChatSession :=
      { id := containerId ++ "-" ++ toString now, containerId := containerId,
        messages := [], createdAt := ts, updatedAt := ts }
    (session, storeSet store session)

/-- createChatSession from the llm service: always creates and registers. -/
def createChatSession (now : Nat) (ts : String) (containerId : String)
    (store : Store) : ChatSession × Store :=
  let session : ChatSession :=
    { id := containerId ++ "-" ++ toString now, containerId := containerId,
      messages := [], createdAt := ts, updatedAt := ts }
  (session, storeSet store session)

theorem storeSet_cons_ne {x : ChatSession} {xs : Store} {sess : ChatSession}
    (hx : ¬ x.id = sess.id) : storeSet (x :: xs) sess = x :: storeSet xs sess := by
  by_cases hany : xs.any (fun s => s.id = sess.id)
  · simp [storeSet, hx, hany]
  · simp [storeSet, hx, hany]

theorem storeSet_cons_eq {x : ChatSession} {xs : Store} {sess : ChatSession}
    (hx : x.id = sess.id) :
    storeSet (x :: xs) sess =
      sess :: xs.map (fun s => if s.id = sess.id then sess else s) := by
  simp [storeSet, hx]

/-- Inserting a fresh session makes it findable: if no registered session
satisfies the predicate and the inserted one does, find returns it. -/
theorem find?_storeSet (p : ChatSession → Bool) (store : Store) (sess : ChatSession)
    (hall : store.find? p = none) (hp : p sess = true) :
    (storeSet store sess).find? p = some sess := by
  induction store with
  | nil => simp [storeSet, List.find?, hp]
  | cons x xs ih =>
    rw [List.find?_cons] at hall
    by_cases hpx : p x
    · simp [hpx] at hall
    · simp only [hpx, cond_false] at hall
      by_cases hx : x.id = sess.id
      · rw [storeSet_cons_eq hx, List.find?_cons, hp]
      · rw [storeSet_cons_ne hx, List.find?_cons]
        simp only [hpx, cond_false]
        exact ih hall

/-- After an insertion, lookup by the inserted id returns it. -/
theorem storeGet_storeSet (store : Store) (sess : ChatSession) :
    storeGet (storeSet store sess) sess.id = some sess := by
  induction store with
  | nil => simp [storeSet, storeGet, List.find?]
  | cons x xs ih =>
    by_cases hx : x.id = sess.id
    · rw [storeSet_cons_eq hx]
      simp [storeGet, List.find?_cons]
    · rw [storeSet_cons_ne hx]
      unfold storeGet at ih ⊢
      rw [List.find?_cons]
      simp only [decide_eq_false hx, cond_false]
      exact ih

/-- Claim C9: getOrCreateChatSession is idempotent: a second call with the
same containerId and no intervening create returns the same session and leaves
the registry unchanged; the first call returns the first registered session
whose containerId matches, and when none exists it creates and registers a new
empty session for that container. -/
theorem getOrCreateChatSession_idempotent (now1 now2 : Nat) (ts1 ts2 : String)
    (containerId : String) (store : Store) :
    getOrCreateChatSession now2 ts2 containerId
        (getOrCreateChatSession now1 ts1 containerId store).2 =
      getOrCreateChatSession now1 ts1 containerId store ∧
    (match store.find? (fun s => s.containerId = containerId) with
     | some s => getOrCreateChatSession now1 ts1 containerId store = (s, store)
     | none =>
       (getOrCreateChatSession now1 ts1 containerId store).1.messages = [] ∧
       (getOrCreateChatSession now1 ts1 containerId store).1.containerId = containerId ∧
       storeGet (getOrCreateChatSession now1 ts1 containerId store).2
           (getOrCreateChatSession now1 ts1 containerId store).1.id =
         some (getOrCreateChatSession now1 ts1 containerId store).1) := by
  cases h : store.find? (fun s => s.containerId = containerId) with
  | some s =>
    constructor
    · simp [getOrCreateChatSession, h]
    · simp [getOrCreateChatSession, h]
  | none =>
    have hfind : (storeSet store
        { id := containerId ++ "-" ++ toString now1, containerId := containerId,
          messages := [], createdAt := ts1, updatedAt := ts1 }).find?
          (fun s => s.containerId = containerId) =
        some { id := containerId ++ "-" ++ toString now1, containerId := containerId,
               messages := [], createdAt := ts1, updatedAt := ts1 } :=
      find?_storeSet _ store _ h (by simp)
    refine ⟨?_, ?_, ?_, ?_⟩
    · simp [getOrCreateChatSession, h, hfind]
    · simp [getOrCreateChatSession, h]
    · simp [getOrCreateChatSession, h]
    · simp only [getOrCreateChatSession, h]
      exact storeGet_storeSet store _

instance {ε α : Type} [DecidableEq ε] [DecidableEq α] : DecidableEq (Except ε α)
  | .error e, .error f =>
    if h : e = f then isTrue (by rw [h]) else isFalse (by simp [h])
  | .error _, .ok _ => isFalse (by simp)
  | .ok _, .error _ => isFalse (by simp)
  | .ok a, .ok b =>
    if h : a = b then isTrue (by rw [h]) else isFalse (by simp [h])

/-- A JavaScript number as it matters to the configuration service: either a
rational value or the not-a-number value produced by coercing a non-numeric
input. -/
inductive JsNumber where
  | nan
  | num (q : ℚ)
deriving DecidableEq, Repr

/-- AiConfig from the ai-config service; baseUrl and temperature are optional
in the interface. -/
structure AiConfig where
  provider : String
  apiKey : String
  baseUrl : Option String
  model : String
  temperature : Option JsNumber
deriving DecidableEq, Repr

/-- A partial AiConfig, as handed to normalizeConfig and updateAiConfig:
every field may be absent. -/
structure RawAiConfig where
  provider : Option String := none
  apiKey : Option String := none
  baseUrl : Option String := none
  model : Option String := none
  temperature : Option JsNumber := none
deriving DecidableEq, Repr

/-- Provider metadata rows from the ai-config service. -/
structure ProviderMetadata where
  id : String
  name : String
  description : String
  defaultBaseUrl : String
  documentationUrl : String
  supportsStreaming : Bool
deriving DecidableEq, Repr

/-- The providerMetadata table. -/
def providerMetadata : List ProviderMetadata :=
  [{ id := "openai", name := "OpenAI",
     description := "ChatGPT and GPT-4 family with native streaming",
     defaultBaseUrl := "https://api.openai.com/v1",
     documentationUrl := "https://platform.openai.com/docs/overview",
     supportsStreaming := true },
   { id := "openrouter", name := "OpenRouter",
     description := "Unified access to multiple models with OpenAI-compatible API",
     defaultBaseUrl := "https://openrouter.ai/api/v1",
     documentationUrl := "https://openrouter.ai/docs",
     supportsStreaming := true },
   { id := "anthropic", name := "Anthropic Claude",
     description := "Claude 3 family with native JSON and vision support",
     defaultBaseUrl := "https://api.anthropic.com",
     documentationUrl := "https://docs.anthropic.com/claude/reference",
     supportsStreaming := false },
   { id := "google-gemini", name := "Google Gemini",
     description := "Gemini models with native multimodal capabilities",
     defaultBaseUrl := "https://generativelanguage.googleapis.com/v1beta",
     documentationUrl := "https://ai.google.dev/gemini-api/docs",
     supportsStreaming := false }]

/-- Drop leading whitespace characters. -/
def dropLeadingWs : List Char → List Char
  | [] => []
  | c :: cs => if c.isWhitespace then dropLeadingWs cs else c :: cs

/-- The JavaScript string trim method: strip whitespace from both ends. -/
def jsTrim (s : String) : String :=
  ⟨(dropLeadingWs ((dropLeadingWs s.data).reverse)).reverse⟩

/-- JavaScript string short-circuit: a possibly-absent string or-else a
default, where the empty string is falsy. -/
def jsOrString (o : Option String) (d : String) : String :=
  match o with
  | some s => if s = "" then d else s
  | none => d

/-- normalizeConfig from the ai-config service. -/
def normalizeConfig (raw : RawAiConfig) : AiConfig :=
  let provider := jsOrString raw.provider "openai"
  let providerDefaults := providerMetadata.find? (fun item => item.id = provider)
  let baseUrl := jsOrString (raw.baseUrl.map jsTrim)
    (jsOrString (providerDefaults.map (fun d => d.defaultBaseUrl)) "https://api.openai.com/v1")
  let temperature :=
    match raw.temperature with
    | none => JsNumber.num (1 / 5)
    | some t => t
  { provider := provider,
    apiKey := jsOrString (raw.apiKey.map jsTrim) "",
    baseUrl := some baseUrl,
    model := jsOrString (raw.model.map jsTrim) "gpt-4o-mini",
    temperature := some temperature }

/-- The object spread in updateAiConfig: fields present in the update override
the current configuration. -/
def mergeConfig (current : AiConfig) (update : RawAiConfig) : RawAiConfig :=
  { provider := update.provider.orElse (fun _ => some current.provider),
    apiKey := update.apiKey.orElse (fun _ => some current.apiKey),
    baseUrl := update.baseUrl.orElse (fun _ => current.baseUrl),
    model := update.model.orElse (fun _ => some current.model),
    temperature := update.temperature.orElse (fun _ => current.temperature) }

/-- JavaScript falsiness of a number: zero and not-a-number are falsy. -/
def jsFalsyNum : JsNumber → Bool
  | .nan => true
  | .num q => q = 0

/-- JavaScript short-circuit against the literal zero, as in the expression
that guards the not-a-number check. -/
def jsOrNumZero (t : Option JsNumber) : JsNumber :=
  match t with
  | none => .num 0
  | some v => if jsFalsyNum v then .num 0 else v

/-- JavaScript numeric less-than: any comparison with not-a-number is false. -/
def jsLtNum : JsNumber → JsNumber → Bool
  | .num a, .num b => a < b
  | _, _ => false

/-- updateAiConfig from the ai-config service: merge, normalize, validate,
persist (persistence and caching are outside the embedding; the merged
configuration is the returned and stored value). -/
def updateAiConfig (current : AiConfig) (update : RawAiConfig) : Except String AiConfig :=
  let merged := normalizeConfig (mergeConfig current update)
  if merged.apiKey = "" then .error "API key is required"
  else if merged.model = "" then .error "Model is required"
  else if jsOrNumZero merged.temperature = .nan then .error "Temperature must be a number"
  else
    match merged.temperature with
    | some t =>
      if jsLtNum t (.num 0) || jsLtNum (.num 2) t then
        .error "Temperature must be between 0 and 2"
      else .ok merged
    | none => .ok merged

/-- A valid current configuration with a non-empty key and model. -/
def validConfig0 : AiConfig :=
  normalizeConfig { apiKey := some "key", model := some "m",
                    temperature := some (JsNumber.num 1) }

/-- Claim C8 as stated is false on two counts. A merged temperature that is
not a number is accepted: coercing it against the literal zero makes the
not-a-number check unreachable, so the update succeeds and stores the
not-a-number temperature. And the model field is silently defaulted: updating
with an empty model string succeeds with the model replaced by the default
model name rather than failing. -/
theorem updateAiConfig_counterexample :
    (normalizeConfig (mergeConfig validConfig0
        { temperature := some JsNumber.nan })).temperature = some JsNumber.nan ∧
    (updateAiConfig validConfig0 { temperature := some JsNumber.nan }).isOk = true ∧
    updateAiConfig validConfig0 { model := some "" } =
      .ok (normalizeConfig (mergeConfig validConfig0 { model := some "" })) ∧
    (normalizeConfig (mergeConfig validConfig0 { model := some "" })).model =
      "gpt-4o-mini" := by
  decide

theorem jsOrString_ne_empty (o : Option String) (d : String) (hd : ¬ d = "") :
    ¬ jsOrString o d = "" := by
  cases o with
  | none => exact hd
  | some s =>
    by_cases hs : s = ""
    · show ¬ (if s = "" then d else s) = ""
      rw [if_pos hs]; exact hd
    · show ¬ (if s = "" then d else s) = ""
      rw [if_neg hs]; exact hs

theorem jsOrNumZero_ne_nan (t : Option JsNumber) : ¬ jsOrNumZero t = .nan := by
  unfold jsOrNumZero
  match t with
  | none => simp
  | some .nan => simp [jsFalsyNum]
  | some (.num q) =>
    by_cases hq : q = 0
    · simp [jsFalsyNum, hq]
    · simp [jsFalsyNum, hq]

/-- Claim C8 (amended): updateAiConfig fails with a synchronous validation
error exactly when the merged configuration has an empty API key or a numeric
temperature outside the zero-to-two range, and on success the merged
configuration is returned. The API key is never silently defaulted, but the
model check and the not-a-number temperature check are unreachable: a
missing or empty model is silently defaulted to the default model name during
normalization, and a not-a-number temperature passes validation because the
check coerces it to zero first. -/
theorem updateAiConfig_validation (current : AiConfig) (update : RawAiConfig) :
    ¬ (normalizeConfig (mergeConfig current update)).model = "" ∧
    updateAiConfig current update =
      (if (normalizeConfig (mergeConfig current update)).apiKey = "" then
        Except.error "API key is required"
       else
        match (normalizeConfig (mergeConfig current update)).temperature with
        | some (JsNumber.num q) =>
          if q < 0 ∨ q > 2 then Except.error "Temperature must be between 0 and 2"
          else Except.ok (normalizeConfig (mergeConfig current update))
        | _ => Except.ok (normalizeConfig (mergeConfig current update))) := by
  have hmodel : ¬ (normalizeConfig (mergeConfig current update)).model = "" := by
    unfold normalizeConfig
    exact jsOrString_ne_empty _ _ (by decide)
  refine ⟨hmodel, ?_⟩
  unfold updateAiConfig
  by_cases hkey : (normalizeConfig (mergeConfig current update)).apiKey = ""
  · simp [hkey]
  · simp only [hkey, if_false, hmodel,
      jsOrNumZero_ne_nan (normalizeConfig (mergeConfig current update)).temperature,
      if_neg]
    cases ht : (normalizeConfig (mergeConfig current update)).temperature with
    | none => simp
    | some t =>
      cases t with
      | nan => simp [jsLtNum]
      | num q =>
        by_cases h0 : q < 0
        · simp [jsLtNum, h0]
        · by_cases h2 : q > 2
          · simp [jsLtNum, h0, h2]
          · simp [jsLtNum, h0, h2]

/-- Role strings as sent on the wire. -/
def roleString : Role → String
  | .user => "user"
  | .assistant => "assistant"

/-- OpenAI-compatible message content: a plain string for pass-through
messages, a part array for normalized user messages with attachments. -/
inductive OpenAIMessageContent where
  | plain (s : String)
  | parts (l : List OpenAIPart)
deriving DecidableEq, Repr

/-- OpenAI-compatible wire message. -/
structure OpenAIMessage where
  role : String
  content : OpenAIMessageContent
deriving DecidableEq, Repr

/-- toOpenAIMessages from the llm service: a leading system message, then the
history mapped one-to-one, normalizing only user messages that carry an
attachments field. -/
def toOpenAIMessages (decode : String → String) (systemPrompt : String)
    (messages : List Message) : List OpenAIMessage :=
  { role := "system", content := .plain systemPrompt } ::
    messages.map (fun msg =>
      { role := roleString msg.role,
        content :=
          match msg.role, msg.attachments with
          | .user, some atts => .parts (buildMessageContent decode msg.content atts)
          | _, _ => .plain msg.content })

/-- Anthropic wire message. -/
structure AnthropicMessage where
  role : String
  content : List AnthropicPart
deriving DecidableEq, Repr

/-- toAnthropicMessages from the llm service: every message becomes an array
of parts; user messages with an attachments field are normalized, everything
else becomes a single text part. -/
def toAnthropicMessages (decode : String → String) (messages : List Message) :
    List AnthropicMessage :=
  messages.map (fun msg =>
    { role := roleString msg.role,
      content :=
        match msg.role, msg.attachments with
        | .user, some atts => buildAnthropicContent decode msg.content atts
        | _, _ => [AnthropicPart.text msg.content] })

/-- The fixed fallback text substituted for empty completions. -/
def fallbackString : String := "Sorry, I could not generate a response."

/-- Message field of an OpenAI completion choice. -/
structure OpenAIRespMessage where
  content : Option String
deriving DecidableEq, Repr

/-- One OpenAI completion choice. -/
structure OpenAIChoice where
  message : Option OpenAIRespMessage
deriving DecidableEq, Repr

/-- An OpenAI chat completion. -/
structure OpenAICompletion where
  choices : List OpenAIChoice
deriving DecidableEq, Repr

/-- One content part of an Anthropic response. -/
structure AnthropicRespPart where
  type : String
  text : String
deriving DecidableEq, Repr

/-- An Anthropic messages response. -/
structure AnthropicResponse where
  content : List AnthropicRespPart
deriving DecidableEq, Repr

/-- One part of a Gemini candidate content. -/
structure GeminiRespPart where
  text : Option String
deriving DecidableEq, Repr

/-- Content of a Gemini candidate. -/
structure GeminiRespContent where
  parts : Option (List GeminiRespPart)
deriving DecidableEq, Repr

/-- One Gemini candidate. -/
structure GeminiCandidate where
  content : Option GeminiRespContent
deriving DecidableEq, Repr

/-- Error object of a Gemini response body. -/
structure GeminiError where
  message : Option String
deriving DecidableEq, Repr

/-- Parsed Gemini response body. -/
structure GeminiData where
  error : Option GeminiError
  candidates : Option (List GeminiCandidate)
deriving DecidableEq, Repr

/-- A Gemini HTTP response: ok status plus parsed body. -/
structure GeminiHttpResponse where
  ok : Bool
  data : GeminiData
deriving DecidableEq, Repr

/-- The environment of one sendMessage call: the clock readings taken during
the call, base64 decoding, and the outcomes of the external collaborators
(configuration read, codebase-context system prompt build, and the provider
transport of each family). -/
structure Env where
  sessionNow : Nat
  sessionTimestamp : String
  userNow : Nat
  userTimestamp : String
  assistantNow : Nat
  assistantTimestamp : String
  decode : String → String
  aiConfig : Except String AiConfig
  systemPrompt : Except String String
  openaiResult : Except String OpenAICompletion
  anthropicResult : Except String AnthropicResponse
  geminiResult : Except String GeminiHttpResponse

/-- Extraction of the OpenAI completion text: first choice, optional message,
optional content, with the falsy-or fallback applied directly at extraction,
so an absent or empty content already becomes the fallback text here. -/
def openAICompletionText (completion : OpenAICompletion) : String :=
  jsOrString ((completion.choices.head?.bind (fun c => c.message)).bind
    (fun m => m.content)) fallbackString

/-- Extraction of the Anthropic response text: concatenate the text of the
text-typed parts and trim. -/
def anthropicResponseText (response : AnthropicResponse) : String :=
  jsTrim (String.join (response.content.map
    (fun part => if part.type = "text" then part.text else "")))

/-- The part list of the first Gemini candidate, empty when any link of the
optional chain is absent. -/
def geminiResponseParts (data : GeminiData) : List GeminiRespPart :=
  (((data.candidates.bind List.head?).bind (fun c => c.content)).bind
    (fun c => c.parts)).getD []

/-- Extraction of the Gemini response text: concatenate the optional texts of
the first candidate parts and trim. -/
def geminiResponseText (data : GeminiData) : String :=
  jsTrim (String.join ((geminiResponseParts data).map (fun part => part.text.getD "")))

/-- The provider dispatch of sendMessage: build the wire payload for the
configured provider family and extract the completion text from the transport
outcome. OpenAI-compatible and Anthropic transport failures propagate as they
are; a non-ok Gemini response raises the error message reported in its body,
defaulted when absent or empty. -/
def providerContent (env : Env) (aiConfig : AiConfig) (systemPrompt : String)
    (messages : List Message) (userMsg : Message) : Except String String :=
  if aiConfig.provider = "openai" ∨ aiConfig.provider = "openrouter" then
    let _openaiMessages := toOpenAIMessages env.decode systemPrompt messages
    env.openaiResult.map openAICompletionText
  else if aiConfig.provider = "anthropic" then
    let _anthropicMessages := toAnthropicMessages env.decode messages
    env.anthropicResult.map anthropicResponseText
  else
    let _contents := geminiRequestContents env.decode messages userMsg
    env.geminiResult.bind (fun response =>
      if response.ok = false then
        Except.error (jsOrString (response.data.error.bind (fun e => e.message))
          "Gemini request failed")
      else
        Except.ok (geminiResponseText response.data))

/-- The user message constructed at the top of sendMessage and of the
streaming path: the attachments field is set only when the list is
non-empty. -/
def mkUserMessage (env : Env) (userMessage : String)
    (attachments : List Attachment) : Message :=
  { id := "user-" ++ toString env.userNow, role := .user, content := userMessage,
    timestamp := env.userTimestamp,
    attachments := if attachments.length > 0 then some attachments else none }

/-- createAssistantMessage from the llm service: construct the assistant
message, append it to the session and bump updatedAt. -/
def createAssistantMessage (env : Env) (session : ChatSession) (content : String) :
    Message × ChatSession :=
  let assistantMsg : Message :=
    { id := "assistant-" ++ toString env.assistantNow, role := .assistant,
      content := content, timestamp := env.assistantTimestamp, attachments := none }
  (assistantMsg,
   { session with messages := session.messages ++ [assistantMsg],
                  updatedAt := env.assistantTimestamp })

/-- sendMessage from the llm service: resolve or create the session, append
the user message, then read the configuration, build the system prompt,
dispatch to the provider, substitute the fallback for an empty completion,
and append the assistant message. Failures after the user append leave the
registry in the state reached by that append. -/
def sendMessage (env : Env) (containerId : String) (userMessage : String)
    (attachments : List Attachment) (store : Store) :
    Except String (Message × Message) × Store :=
  let found := getOrCreateChatSession env.sessionNow env.sessionTimestamp containerId store
  let userMsg := mkUserMessage env userMessage attachments
  let session1 := { found.1 with messages := found.1.messages ++ [userMsg] }
  let store2 := storeSet found.2 session1
  match env.aiConfig with
  | .error e => (.error e, store2)
  | .ok aiConfig =>
    match env.systemPrompt with
    | .error e => (.error e, store2)
    | .ok systemPrompt =>
      match providerContent env aiConfig systemPrompt session1.messages userMsg with
      | .error e => (.error e, store2)
      | .ok raw =>
        let assistantContent := if raw = "" then fallbackString else raw
        let created := createAssistantMessage env session1 assistantContent
        (.ok (userMsg, created.1), storeSet store2 created.2)

/-- The session as it stands right after the user append of sendMessage. -/
def sessionAfterUser (env : Env) (containerId : String) (userMessage : String)
    (attachments : List Attachment) (store : Store) : ChatSession :=
  let found := getOrCreateChatSession env.sessionNow env.sessionTimestamp containerId store
  { found.1 with messages := found.1.messages ++ [mkUserMessage env userMessage attachments] }

/-- The registry as it stands right after the user append of sendMessage. -/
def storeAfterUser (env : Env) (containerId : String) (userMessage : String)
    (attachments : List Attachment) (store : Store) : Store :=
  storeSet (getOrCreateChatSession env.sessionNow env.sessionTimestamp containerId store).2
    (sessionAfterUser env containerId userMessage attachments store)

/-- The assistant message a successful sendMessage builds from the extracted
completion text. -/
def assistantMessageOf (env : Env) (raw : String) : Message :=
  { id := "assistant-" ++ toString env.assistantNow, role := .assistant,
    content := if raw = "" then fallbackString else raw,
    timestamp := env.assistantTimestamp, attachments := none }

/-- The session after a successful sendMessage call. -/
def sessionAfterSend (env : Env) (containerId : String) (userMessage : String)
    (attachments : List Attachment) (store : Store) (raw : String) : ChatSession :=
  { sessionAfterUser env containerId userMessage attachments store with
      messages := (sessionAfterUser env containerId userMessage attachments store).messages
        ++ [assistantMessageOf env raw],
      updatedAt := env.assistantTimestamp }

/-- The registry after a successful sendMessage call. -/
def storeAfterSend (env : Env) (containerId : String) (userMessage : String)
    (attachments : List Attachment) (store : Store) (raw : String) : Store :=
  storeSet (storeAfterUser env containerId userMessage attachments store)
    (sessionAfterSend env containerId userMessage attachments store raw)

/-- Characterization of a successful sendMessage call. -/
theorem sendMessage_ok_eq (env : Env) (containerId userMessage : String)
    (attachments : List Attachment) (store : Store) (aiConfig : AiConfig)
    (systemPrompt raw : String)
    (hconf : env.aiConfig = .ok aiConfig)
    (hsp : env.systemPrompt = .ok systemPrompt)
    (hraw : providerContent env aiConfig systemPrompt
        (sessionAfterUser env containerId userMessage attachments store).messages
        (mkUserMessage env userMessage attachments) = .ok raw) :
    sendMessage env containerId userMessage attachments store =
      (.ok (mkUserMessage env userMessage attachments, assistantMessageOf env raw),
       storeAfterSend env containerId userMessage attachments store raw) := by
  have hraw' : providerContent env aiConfig systemPrompt
      ((getOrCreateChatSession env.sessionNow env.sessionTimestamp containerId store).1.messages
        ++ [mkUserMessage env userMessage attachments])
      (mkUserMessage env userMessage attachments) = .ok raw := by
    simpa [sessionAfterUser] using hraw
  simp only [sendMessage, hconf, hsp, hraw']
  rfl

/-- Claim C4: for every provider, a successful sendMessage call appends
exactly one user message and exactly one assistant message to the targeted
session, user before assistant, and updatedAt does not decrease across the
call (the wall clock read for the assistant append being at or after the
stored updatedAt). -/
theorem sendMessage_appends_user_then_assistant (env : Env)
    (containerId userMessage : String) (attachments : List Attachment)
    (store : Store) (aiConfig : AiConfig) (systemPrompt raw : String)
    (hconf : env.aiConfig = .ok aiConfig)
    (hsp : env.systemPrompt = .ok systemPrompt)
    (hraw : providerContent env aiConfig systemPrompt
        (sessionAfterUser env containerId userMessage attachments store).messages
        (mkUserMessage env userMessage attachments) = .ok raw) :
    sendMessage env containerId userMessage attachments store =
      (.ok (mkUserMessage env userMessage attachments, assistantMessageOf env raw),
       storeAfterSend env containerId userMessage attachments store raw) ∧
    storeGet (storeAfterSend env containerId userMessage attachments store raw)
        (getOrCreateChatSession env.sessionNow env.sessionTimestamp containerId store).1.id =
      some (sessionAfterSend env containerId userMessage attachments store raw) ∧
    (sessionAfterSend env containerId userMessage attachments store raw).messages =
      (getOrCreateChatSession env.sessionNow env.sessionTimestamp containerId store).1.messages
        ++ [mkUserMessage env userMessage attachments, assistantMessageOf env raw] ∧
    (mkUserMessage env userMessage attachments).role = .user ∧
    (assistantMessageOf env raw).role = .assistant ∧
    ((getOrCreateChatSession env.sessionNow env.sessionTimestamp containerId store).1.updatedAt
        ≤ env.assistantTimestamp →
      (getOrCreateChatSession env.sessionNow env.sessionTimestamp containerId store).1.updatedAt
        ≤ (sessionAfterSend env containerId userMessage attachments store raw).updatedAt) := by
  refine ⟨sendMessage_ok_eq env containerId userMessage attachments store aiConfig
    systemPrompt raw hconf hsp hraw, ?_, ?_, rfl, rfl, ?_⟩
  · exact storeGet_storeSet _ _
  · simp [sessionAfterSend, sessionAfterUser]
  · exact fun h => h

/-- A concrete environment in which every collaborator succeeds and the
OpenAI transport returns the completion text "Hello". -/
def envOk : Env :=
  { sessionNow := 1, sessionTimestamp := "2024-01-01T00:00:00.000Z",
    userNow := 2, userTimestamp := "2024-01-01T00:00:01.000Z",
    assistantNow := 3, assistantTimestamp := "2024-01-01T00:00:02.000Z",
    decode := fun s => s,
    aiConfig := .ok { provider := "openai", apiKey := "k", baseUrl := none,
                      model := "m", temperature := none },
    systemPrompt := .ok "sys",
    openaiResult := .ok { choices := [{ message := some { content := some "Hello" } }] },
    anthropicResult := .ok { content := [] },
    geminiResult := .ok { ok := true, data := { error := none, candidates := none } } }

/-- Witness for C4 at a concrete input. -/
theorem sendMessage_appends_user_then_assistant_witness :
    sendMessage envOk "c" "hi" [] [] =
      (.ok (mkUserMessage envOk "hi" [], assistantMessageOf envOk "Hello"),
       storeAfterSend envOk "c" "hi" [] [] "Hello") :=
  (sendMessage_appends_user_then_assistant envOk "c" "hi" [] []
    { provider := "openai", apiKey := "k", baseUrl := none, model := "m",
      temperature := none }
    "sys" "Hello" rfl rfl (by decide)).1

/-- Claim C5: when sendMessage fails after appending the user message, the
registry is left exactly in the state reached by that append: the user
message remains in the session history, no assistant message is appended, and
updatedAt is untouched. -/
theorem sendMessage_failure_keeps_user (env : Env) (containerId userMessage : String)
    (attachments : List Attachment) (store : Store) (err : String)
    (hfail : (sendMessage env containerId userMessage attachments store).1 = .error err) :
    (sendMessage env containerId userMessage attachments store).2 =
      storeAfterUser env containerId userMessage attachments store ∧
    storeGet (storeAfterUser env containerId userMessage attachments store)
        (getOrCreateChatSession env.sessionNow env.sessionTimestamp containerId store).1.id =
      some (sessionAfterUser env containerId userMessage attachments store) ∧
    (sessionAfterUser env containerId userMessage attachments store).messages =
      (getOrCreateChatSession env.sessionNow env.sessionTimestamp containerId store).1.messages
        ++ [mkUserMessage env userMessage attachments] ∧
    (sessionAfterUser env containerId userMessage attachments store).updatedAt =
      (getOrCreateChatSession env.sessionNow env.sessionTimestamp containerId store).1.updatedAt := by
  refine ⟨?_, storeGet_storeSet _ _, rfl, rfl⟩
  cases hconf : env.aiConfig with
  | error e => simp [sendMessage, hconf, storeAfterUser, sessionAfterUser]
  | ok aiConfig =>
    cases hsp : env.systemPrompt with
    | error e => simp [sendMessage, hconf, hsp, storeAfterUser, sessionAfterUser]
    | ok systemPrompt =>
      cases hraw : providerContent env aiConfig systemPrompt
          ((getOrCreateChatSession env.sessionNow env.sessionTimestamp containerId store).1.messages
            ++ [mkUserMessage env userMessage attachments])
          (mkUserMessage env userMessage attachments) with
      | error e => simp [sendMessage, hconf, hsp, hraw, storeAfterUser, sessionAfterUser]
      | ok raw =>
        rw [sendMessage_ok_eq env containerId userMessage attachments store aiConfig
          systemPrompt raw hconf hsp (by simpa [sessionAfterUser] using hraw)] at hfail
        simp at hfail

/-- A concrete environment whose codebase-context fetch fails. -/
def envCtxFail : Env :=
  { envOk with systemPrompt := .error "context fetch failed" }

/-- Witness for C5 at a concrete input. -/
theorem sendMessage_failure_keeps_user_witness :
    (sendMessage envCtxFail "c" "hi" [] []).2 =
      storeAfterUser envCtxFail "c" "hi" [] [] ∧
    storeGet (storeAfterUser envCtxFail "c" "hi" [] [])
        (getOrCreateChatSession envCtxFail.sessionNow envCtxFail.sessionTimestamp "c" []).1.id =
      some (sessionAfterUser envCtxFail "c" "hi" [] []) ∧
    (sessionAfterUser envCtxFail "c" "hi" [] []).messages =
      (getOrCreateChatSession envCtxFail.sessionNow envCtxFail.sessionTimestamp "c" []).1.messages
        ++ [mkUserMessage envCtxFail "hi" []] ∧
    (sessionAfterUser envCtxFail "c" "hi" [] []).updatedAt =
      (getOrCreateChatSession envCtxFail.sessionNow envCtxFail.sessionTimestamp "c" []).1.updatedAt :=
  sendMessage_failure_keeps_user envCtxFail "c" "hi" [] [] "context fetch failed" (by decide)

/-- Claim C6: on every provider path a successful sendMessage call returns an
assistant message whose content is exactly the fixed fallback text when the
extracted provider completion text is empty, never returns an assistant
message with empty content, and persists the returned assistant message as
the last message of the stored session. -/
theorem sendMessage_fallback_on_empty (env : Env) (containerId userMessage : String)
    (attachments : List Attachment) (store : Store) (aiConfig : AiConfig)
    (systemPrompt raw : String)
    (hconf : env.aiConfig = .ok aiConfig)
    (hsp : env.systemPrompt = .ok systemPrompt)
    (hraw : providerContent env aiConfig systemPrompt
        (sessionAfterUser env containerId userMessage attachments store).messages
        (mkUserMessage env userMessage attachments) = .ok raw) :
    (sendMessage env containerId userMessage attachments store).1 =
      .ok (mkUserMessage env userMessage attachments, assistantMessageOf env raw) ∧
    (assistantMessageOf env raw).content = (if raw = "" then fallbackString else raw) ∧
    ¬ (assistantMessageOf env raw).content = "" ∧
    (sessionAfterSend env containerId userMessage attachments store raw).messages.getLast? =
      some (assistantMessageOf env raw) ∧
    storeGet (sendMessage env containerId userMessage attachments store).2
        (getOrCreateChatSession env.sessionNow env.sessionTimestamp containerId store).1.id =
      some (sessionAfterSend env containerId userMessage attachments store raw) := by
  have heq := sendMessage_ok_eq env containerId userMessage attachments store aiConfig
    systemPrompt raw hconf hsp hraw
  refine ⟨by rw [heq], rfl, ?_, ?_, ?_⟩
  · by_cases h : raw = ""
    · show ¬ (if raw = "" then fallbackString else raw) = ""
      rw [if_pos h]; decide
    · show ¬ (if raw = "" then fallbackString else raw) = ""
      rw [if_neg h]; exact h
  · show ((sessionAfterUser env containerId userMessage attachments store).messages
      ++ [assistantMessageOf env raw]).getLast? = some (assistantMessageOf env raw)
    exact List.getLast?_concat _
  · rw [heq]
    exact storeGet_storeSet _ _

/-- A concrete environment whose Anthropic transport returns a response with
no text content. -/
def envEmptyAnthropic : Env :=
  { envOk with
      aiConfig := .ok { provider := "anthropic", apiKey := "k", baseUrl := none,
                        model := "m", temperature := none },
      anthropicResult := .ok { content := [{ type := "tool_use", text := "ignored" }] } }

/-- Witness for C6 at a concrete input: the empty Anthropic completion yields
the fallback text. -/
theorem sendMessage_fallback_on_empty_witness :
    (sendMessage envEmptyAnthropic "c" "hi" [] []).1 =
      .ok (mkUserMessage envEmptyAnthropic "hi" [], assistantMessageOf envEmptyAnthropic "") ∧
    (assistantMessageOf envEmptyAnthropic "").content =
      (if ("" : String) = "" then fallbackString else "") ∧
    ¬ (assistantMessageOf envEmptyAnthropic "").content = "" ∧
    (sessionAfterSend envEmptyAnthropic "c" "hi" [] [] "").messages.getLast? =
      some (assistantMessageOf envEmptyAnthropic "") ∧
    storeGet (sendMessage envEmptyAnthropic "c" "hi" [] []).2
        (getOrCreateChatSession envEmptyAnthropic.sessionNow
          envEmptyAnthropic.sessionTimestamp "c" []).1.id =
      some (sessionAfterSend envEmptyAnthropic "c" "hi" [] [] "") :=
  sendMessage_fallback_on_empty envEmptyAnthropic "c" "hi" [] []
    { provider := "anthropic", apiKey := "k", baseUrl := none, model := "m",
      temperature := none }
    "sys" "" rfl rfl (by decide)

/-- Delta payload of a streamed completion chunk. -/
structure StreamDelta where
  content : Option String
deriving DecidableEq, Repr

/-- One choice of a streamed completion chunk. -/
structure StreamChoice where
  delta : Option StreamDelta
deriving DecidableEq, Repr

/-- One streamed completion chunk. -/
structure StreamChunk where
  choices : List StreamChoice
deriving DecidableEq, Repr

/-- The optional-chain extraction of the delta text of a chunk. -/
def chunkContent (chunk : StreamChunk) : Option String :=
  (chunk.choices.head?.bind (fun c => c.delta)).bind (fun d => d.content)

/-- Environment of one sendMessageStream call: the single-shot environment
plus the outcome of opening the streaming request and the sequence of chunks
the upstream stream delivers, with a clock for the per-chunk timestamps. -/
structure StreamEnv where
  base : Env
  streamOpen : Except String Unit
  chunks : List StreamChunk
  chunkTimestamp : Nat → String

/-- One event of the streaming protocol. -/
inductive StreamEvent where
  | user (m : Message)
  | assistant (m : Message)
  | done (m : Message)
deriving DecidableEq, Repr

/-- The message carried by an event. -/
def StreamEvent.data : StreamEvent → Message
  | .user m => m
  | .assistant m => m
  | .done m => m

/-- The streaming loop of sendMessageStream: for every chunk whose delta
carries non-empty text, extend the accumulated buffer and emit an assistant
snapshot event holding the full accumulation so far under the fixed assistant
id; chunks without delta text are skipped. Returns the final accumulation and
the emitted events. -/
def processChunks (assistantId : String) (ts : Nat → String) :
    List StreamChunk → String → Nat → String × List StreamEvent
  | [], acc, _ => (acc, [])
  | chunk :: rest, acc, i =>
    match chunkContent chunk with
    | none => processChunks assistantId ts rest acc i
    | some s =>
      if s = "" then processChunks assistantId ts rest acc i
      else
        let tail := processChunks assistantId ts rest (acc ++ s) (i + 1)
        (tail.1,
         StreamEvent.assistant
           { id := assistantId, role := .assistant, content := acc ++ s,
             timestamp := ts i, attachments := none } :: tail.2)

/-- The delta text a chunk contributes, none when skipped by the loop. -/
def keptDelta (chunk : StreamChunk) : Option String :=
  match chunkContent chunk with
  | some s => if s = "" then none else some s
  | none => none

/-- The sequence of delta texts the loop keeps. -/
def keptDeltas (chunks : List StreamChunk) : List String :=
  chunks.filterMap keptDelta

/-- The successive accumulation snapshots over a list of kept deltas. -/
def accumulate (acc : String) : List String → List String
  | [] => []
  | s :: rest => (acc ++ s) :: accumulate (acc ++ s) rest

/-- sendMessageStream from the llm service. The configuration is read first;
every provider that is not OpenAI-compatible degrades to the three-event
wrapper around the single-shot call. On the OpenAI-compatible path the user
message is appended and emitted before the context fetch, then the streaming
loop emits assistant snapshots, and after the upstream stream ends the final
accumulation is appended to the session and emitted as the done event. The
third component is the abnormal-termination error, none on a full drain. -/
def sendMessageStream (env : StreamEnv) (containerId : String) (userMessage : String)
    (attachments : List Attachment) (store : Store) :
    List StreamEvent × Store × Option String :=
  match env.base.aiConfig with
  | .error e => ([], store, some e)
  | .ok aiConfig =>
    if ¬ aiConfig.provider = "openai" ∧ ¬ aiConfig.provider = "openrouter" then
      match sendMessage env.base containerId userMessage attachments store with
      | (.ok result, store') =>
        ([.user result.1, .assistant result.2, .done result.2], store', none)
      | (.error e, store') => ([], store', some e)
    else
      let found := getOrCreateChatSession env.base.sessionNow env.base.sessionTimestamp
        containerId store
      let userMsg := mkUserMessage env.base userMessage attachments
      let session1 := { found.1 with messages := found.1.messages ++ [userMsg] }
      let store2 := storeSet found.2 session1
      match env.base.systemPrompt with
      | .error e => ([StreamEvent.user userMsg], store2, some e)
      | .ok systemPrompt =>
        let _openaiMessages := toOpenAIMessages env.base.decode systemPrompt session1.messages
        match env.streamOpen with
        | .error e => ([StreamEvent.user userMsg], store2, some e)
        | .ok _ =>
          let assistantId := "assistant-" ++ toString env.base.assistantNow
          let run := processChunks assistantId env.chunkTimestamp env.chunks "" 0
          let created := createAssistantMessage env.base session1 run.1
          (StreamEvent.user userMsg :: run.2 ++ [StreamEvent.done created.1],
           storeSet store2 created.2, none)

/-- The text accumulated by the OpenAI-compatible streaming loop. -/
def streamText (env : StreamEnv) : String :=
  (processChunks ("assistant-" ++ toString env.base.assistantNow)
    env.chunkTimestamp env.chunks "" 0).1

/-- The assistant snapshot events emitted by the OpenAI-compatible streaming
loop. -/
def streamAssistantEvents (env : StreamEnv) : List StreamEvent :=
  (processChunks ("assistant-" ++ toString env.base.assistantNow)
    env.chunkTimestamp env.chunks "" 0).2

/-- The final assistant message appended and emitted as the done event by the
OpenAI-compatible streaming path. -/
def streamDoneMessage (env : StreamEnv) : Message :=
  { id := "assistant-" ++ toString env.base.assistantNow, role := .assistant,
    content := streamText env, timestamp := env.base.assistantTimestamp,
    attachments := none }

/-- The session after a fully drained OpenAI-compatible streaming call. -/
def streamFinalSession (env : StreamEnv) (containerId : String) (userMessage : String)
    (attachments : List Attachment) (store : Store) : ChatSession :=
  { sessionAfterUser env.base containerId userMessage attachments store with
      messages := (sessionAfterUser env.base containerId userMessage attachments store).messages
        ++ [streamDoneMessage env],
      updatedAt := env.base.assistantTimestamp }

theorem processChunks_events (assistantId : String) (ts : Nat → String)
    (chunks : List StreamChunk) :
    ∀ acc i, ∀ e ∈ (processChunks assistantId ts chunks acc i).2,
      ∃ m, e = StreamEvent.assistant m ∧ m.id = assistantId := by
  induction chunks with
  | nil => intro acc i e he; simp [processChunks] at he
  | cons chunk rest ih =>
    intro acc i e he
    rw [processChunks] at he
    cases hc : chunkContent chunk with
    | none =>
      simp only [hc] at he
      exact ih acc i e he
    | some s =>
      by_cases hs : s = ""
      · simp only [hc, if_pos hs] at he
        exact ih acc i e he
      · simp only [hc, if_neg hs] at he
        rcases List.mem_cons.mp he with h | h
        · exact ⟨_, h, rfl⟩
        · exact ih (acc ++ s) (i + 1) e h

theorem processChunks_contents (assistantId : String) (ts : Nat → String)
    (chunks : List StreamChunk) :
    ∀ acc i, ((processChunks assistantId ts chunks acc i).2).map
        (fun e => e.data.content) = accumulate acc (keptDeltas chunks) := by
  induction chunks with
  | nil => intro acc i; simp [processChunks, keptDeltas, accumulate]
  | cons chunk rest ih =>
    intro acc i
    rw [processChunks, keptDeltas, List.filterMap_cons]
    cases hc : chunkContent chunk with
    | none =>
      simp only [keptDelta, hc]
      exact ih acc i
    | some s =>
      by_cases hs : s = ""
      · simp only [keptDelta, hc, if_pos hs]
        exact ih acc i
      · simp only [keptDelta, hc, if_neg hs]
        show _ :: _ = accumulate acc (s :: rest.filterMap keptDelta)
        rw [accumulate]
        exact congrArg _ (ih (acc ++ s) (i + 1))

theorem processChunks_final (assistantId : String) (ts : Nat → String)
    (chunks : List StreamChunk) :
    ∀ acc i, (processChunks assistantId ts chunks acc i).1 =
      (accumulate acc (keptDeltas chunks)).getLastD acc := by
  induction chunks with
  | nil => intro acc i; simp [processChunks, keptDeltas, accumulate]
  | cons chunk rest ih =>
    intro acc i
    rw [processChunks, keptDeltas, List.filterMap_cons]
    cases hc : chunkContent chunk with
    | none =>
      simp only [keptDelta, hc]
      exact ih acc i
    | some s =>
      by_cases hs : s = ""
      · simp only [keptDelta, hc, if_pos hs]
        exact ih acc i
      · simp only [keptDelta, hc, if_neg hs]
        show (processChunks assistantId ts rest (acc ++ s) (i + 1)).1 =
          (accumulate acc (s :: rest.filterMap keptDelta)).getLastD acc
        rw [accumulate, List.getLastD_cons]
        exact ih (acc ++ s) (i + 1)

theorem processChunks_of_kept_nil (assistantId : String) (ts : Nat → String)
    (chunks : List StreamChunk) :
    ∀ acc i, keptDeltas chunks = [] →
      processChunks assistantId ts chunks acc i = (acc, []) := by
  induction chunks with
  | nil => intro acc i _; rfl
  | cons chunk rest ih =>
    intro acc i h
    rw [keptDeltas, List.filterMap_cons] at h
    rw [processChunks]
    cases hc : chunkContent chunk with
    | none =>
      simp only [keptDelta, hc] at h
      simp only [hc]
      exact ih acc i h
    | some s =>
      by_cases hs : s = ""
      · simp only [keptDelta, hc, if_pos hs] at h
        simp only [hc, if_pos hs]
        exact ih acc i h
      · simp only [keptDelta, hc, if_neg hs] at h
        exact absurd h (List.cons_ne_nil s _)

/-- Every accumulation snapshot extends the previous one: the chain of
snapshots starting at the initial buffer is linked by string extension. -/
theorem accumulate_chain (acc : String) (l : List String) :
    List.Chain (fun a b => ∃ t, b = a ++ t) acc (accumulate acc l) := by
  induction l generalizing acc with
  | nil => exact List.Chain.nil
  | cons s rest ih => exact List.Chain.cons ⟨s, rfl⟩ (ih (acc ++ s))

theorem chain_tail {α : Type} {R : α → α → Prop} {a : α} {l : List α}
    (h : List.Chain R a l) : List.Chain' R l := by
  cases l with
  | nil => trivial
  | cons b m => exact (List.chain_cons.mp h).2

/-- Snapshot lengths never shrink along the emitted sequence. -/
theorem accumulate_length_chain (acc : String) (l : List String) :
    List.Chain' (fun a b : String => a.length ≤ b.length) (accumulate acc l) := by
  have h := accumulate_chain acc l
  have h2 : List.Chain (fun a b : String => a.length ≤ b.length) acc (accumulate acc l) := by
    refine List.Chain.imp ?_ h
    rintro a b ⟨t, rfl⟩
    simp [Nat.le_add_right]
  exact chain_tail h2

/-- Characterization of a fully drained OpenAI-compatible streaming call in
which the configuration read, the context fetch and the stream opening all
succeed. -/
theorem sendMessageStream_openai_eq (env : StreamEnv)
    (containerId userMessage : String) (attachments : List Attachment)
    (store : Store) (aiConfig : AiConfig) (systemPrompt : String)
    (hconf : env.base.aiConfig = .ok aiConfig)
    (hprov : aiConfig.provider = "openai" ∨ aiConfig.provider = "openrouter")
    (hsp : env.base.systemPrompt = .ok systemPrompt)
    (hopen : env.streamOpen = .ok ()) :
    sendMessageStream env containerId userMessage attachments store =
      (StreamEvent.user (mkUserMessage env.base userMessage attachments) ::
         streamAssistantEvents env ++ [StreamEvent.done (streamDoneMessage env)],
       storeSet (storeAfterUser env.base containerId userMessage attachments store)
         (streamFinalSession env containerId userMessage attachments store),
       none) := by
  have hcond : ¬ (¬ aiConfig.provider = "openai" ∧ ¬ aiConfig.provider = "openrouter") :=
    fun hand => hprov.elim hand.1 hand.2
  simp only [sendMessageStream, hconf, if_neg hcond, hsp, hopen]
  rfl

/-- Claim C2: fully draining the OpenAI-compatible streaming sequence yields
exactly one user event first, then zero or more assistant snapshot events
under one assistant id fixed before the first chunk, each holding the full
accumulation so far (hence of non-shrinking length), then exactly one
terminal done event; the assistant message appended to the session is the
done event payload and carries the final accumulation. -/
theorem sendMessageStream_openai_contract (env : StreamEnv)
    (containerId userMessage : String) (attachments : List Attachment)
    (store : Store) (aiConfig : AiConfig) (systemPrompt : String)
    (hconf : env.base.aiConfig = .ok aiConfig)
    (hprov : aiConfig.provider = "openai" ∨ aiConfig.provider = "openrouter")
    (hsp : env.base.systemPrompt = .ok systemPrompt)
    (hopen : env.streamOpen = .ok ()) :
    sendMessageStream env containerId userMessage attachments store =
      (StreamEvent.user (mkUserMessage env.base userMessage attachments) ::
         streamAssistantEvents env ++ [StreamEvent.done (streamDoneMessage env)],
       storeSet (storeAfterUser env.base containerId userMessage attachments store)
         (streamFinalSession env containerId userMessage attachments store),
       none) ∧
    (∀ e ∈ streamAssistantEvents env, ∃ m, e = StreamEvent.assistant m ∧
      m.id = "assistant-" ++ toString env.base.assistantNow) ∧
    (streamAssistantEvents env).map (fun e => e.data.content) =
      accumulate "" (keptDeltas env.chunks) ∧
    List.Chain' (fun a b : String => a.length ≤ b.length)
      ((streamAssistantEvents env).map (fun e => e.data.content)) ∧
    (streamDoneMessage env).content = (accumulate "" (keptDeltas env.chunks)).getLastD "" ∧
    storeGet (storeSet (storeAfterUser env.base containerId userMessage attachments store)
        (streamFinalSession env containerId userMessage attachments store))
        (getOrCreateChatSession env.base.sessionNow env.base.sessionTimestamp
          containerId store).1.id =
      some (streamFinalSession env containerId userMessage attachments store) ∧
    (streamFinalSession env containerId userMessage attachments store).messages =
      (getOrCreateChatSession env.base.sessionNow env.base.sessionTimestamp
        containerId store).1.messages
        ++ [mkUserMessage env.base userMessage attachments, streamDoneMessage env] := by
  refine ⟨sendMessageStream_openai_eq env containerId userMessage attachments store
    aiConfig systemPrompt hconf hprov hsp hopen, ?_, ?_, ?_, ?_, ?_, ?_⟩
  · exact processChunks_events _ _ env.chunks "" 0
  · exact processChunks_contents _ _ env.chunks "" 0
  · rw [streamAssistantEvents, processChunks_contents _ _ env.chunks "" 0]
    exact accumulate_length_chain "" _
  · exact processChunks_final _ _ env.chunks "" 0
  · exact storeGet_storeSet _ _
  · simp [streamFinalSession, sessionAfterUser, streamDoneMessage]

/-- A chunk carrying the delta text "He". -/
def chunkHe : StreamChunk := { choices := [{ delta := some { content := some "He" } }] }

/-- A chunk with no choices, skipped by the loop. -/
def chunkSkip : StreamChunk := { choices := [] }

/-- A chunk carrying an empty delta text, skipped by the loop. -/
def chunkEmpty : StreamChunk := { choices := [{ delta := some { content := some "" } }] }

/-- A chunk carrying the delta text "llo". -/
def chunkLlo : StreamChunk := { choices := [{ delta := some { content := some "llo" } }] }

/-- A concrete streaming environment over envOk with four upstream chunks. -/
def envStreamOk : StreamEnv :=
  { base := envOk, streamOpen := .ok (),
    chunks := [chunkHe, chunkSkip, chunkEmpty, chunkLlo],
    chunkTimestamp := fun _ => "2024-01-01T00:00:01.500Z" }

/-- Witness for C2 at a concrete input. -/
theorem sendMessageStream_openai_contract_witness :
    sendMessageStream envStreamOk "c" "hi" [] [] =
      (StreamEvent.user (mkUserMessage envStreamOk.base "hi" []) ::
         streamAssistantEvents envStreamOk ++
           [StreamEvent.done (streamDoneMessage envStreamOk)],
       storeSet (storeAfterUser envStreamOk.base "c" "hi" [] [])
         (streamFinalSession envStreamOk "c" "hi" [] []),
       none) :=
  (sendMessageStream_openai_contract envStreamOk "c" "hi" [] []
    { provider := "openai", apiKey := "k", baseUrl := none, model := "m",
      temperature := none }
    "sys" rfl (Or.inl rfl) rfl rfl).1

/-- Claim C7: for every provider that is not OpenAI-compatible, the streaming
call degrades to exactly the three-event sequence wrapping the single-shot
call, the assistant and done events carrying the same assistant message. -/
theorem sendMessageStream_degenerate (env : StreamEnv)
    (containerId userMessage : String) (attachments : List Attachment)
    (store : Store) (aiConfig : AiConfig) (u a : Message) (store' : Store)
    (hconf : env.base.aiConfig = .ok aiConfig)
    (h1 : ¬ aiConfig.provider = "openai") (h2 : ¬ aiConfig.provider = "openrouter")
    (hsend : sendMessage env.base containerId userMessage attachments store =
      (.ok (u, a), store')) :
    sendMessageStream env containerId userMessage attachments store =
      ([.user u, .assistant a, .done a], store', none) := by
  simp only [sendMessageStream, hconf, if_pos (And.intro h1 h2), hsend]

/-- A concrete streaming environment whose configuration selects the
Anthropic provider. -/
def envStreamAnthropic : StreamEnv :=
  { base := envEmptyAnthropic, streamOpen := .ok (), chunks := [],
    chunkTimestamp := fun _ => "t" }

/-- Witness for C7 at a concrete input. -/
theorem sendMessageStream_degenerate_witness :
    sendMessageStream envStreamAnthropic "c" "hi" [] [] =
      ([.user (mkUserMessage envEmptyAnthropic "hi" []),
        .assistant (assistantMessageOf envEmptyAnthropic ""),
        .done (assistantMessageOf envEmptyAnthropic "")],
       storeAfterSend envEmptyAnthropic "c" "hi" [] [] "", none) :=
  sendMessageStream_degenerate envStreamAnthropic "c" "hi" [] []
    { provider := "anthropic", apiKey := "k", baseUrl := none, model := "m",
      temperature := none }
    (mkUserMessage envEmptyAnthropic "hi" []) (assistantMessageOf envEmptyAnthropic "")
    (storeAfterSend envEmptyAnthropic "c" "hi" [] [] "")
    rfl (by decide) (by decide) (by decide)

/-- Claim C10: on the OpenAI-compatible streaming path the empty-output
fallback is not applied: when no chunk carries non-empty delta text the
drained sequence has no assistant events and the done event payload, which is
also the assistant message persisted to the session, has empty content rather
than the fallback text. -/
theorem sendMessageStream_no_fallback (env : StreamEnv)
    (containerId userMessage : String) (attachments : List Attachment)
    (store : Store) (aiConfig : AiConfig) (systemPrompt : String)
    (hconf : env.base.aiConfig = .ok aiConfig)
    (hprov : aiConfig.provider = "openai" ∨ aiConfig.provider = "openrouter")
    (hsp : env.base.systemPrompt = .ok systemPrompt)
    (hopen : env.streamOpen = .ok ())
    (hempty : ∀ chunk ∈ env.chunks, keptDelta chunk = none) :
    sendMessageStream env containerId userMessage attachments store =
      ([StreamEvent.user (mkUserMessage env.base userMessage attachments),
        StreamEvent.done (streamDoneMessage env)],
       storeSet (storeAfterUser env.base containerId userMessage attachments store)
         (streamFinalSession env containerId userMessage attachments store),
       none) ∧
    (streamDoneMessage env).content = "" ∧
    ¬ (streamDoneMessage env).content = fallbackString ∧
    (streamFinalSession env containerId userMessage attachments store).messages =
      (getOrCreateChatSession env.base.sessionNow env.base.sessionTimestamp
        containerId store).1.messages
        ++ [mkUserMessage env.base userMessage attachments, streamDoneMessage env] := by
  have hkept : keptDeltas env.chunks = [] := by
    rw [keptDeltas, List.filterMap_eq_nil_iff]
    exact hempty
  have hrun := processChunks_of_kept_nil ("assistant-" ++ toString env.base.assistantNow)
    env.chunkTimestamp env.chunks "" 0 hkept
  have hevents : streamAssistantEvents env = [] := by
    rw [streamAssistantEvents, hrun]
  have hcontent : (streamDoneMessage env).content = "" := by
    show streamText env = ""
    rw [streamText, hrun]
  refine ⟨?_, hcontent, ?_, ?_⟩
  · rw [sendMessageStream_openai_eq env containerId userMessage attachments store
      aiConfig systemPrompt hconf hprov hsp hopen, hevents]
    rfl
  · rw [hcontent]
    decide
  · simp [streamFinalSession, sessionAfterUser, streamDoneMessage]

/-- A concrete streaming environment in which no chunk carries non-empty
delta text. -/
def envStreamEmpty : StreamEnv :=
  { base := envOk, streamOpen := .ok (), chunks := [chunkSkip, chunkEmpty],
    chunkTimestamp := fun _ => "t" }

/-- Witness for C10 at a concrete input. -/
theorem sendMessageStream_no_fallback_witness :
    sendMessageStream envStreamEmpty "c" "hi" [] [] =
      ([StreamEvent.user (mkUserMessage envStreamEmpty.base "hi" []),
        StreamEvent.done (streamDoneMessage envStreamEmpty)],
       storeSet (storeAfterUser envStreamEmpty.base "c" "hi" [] [])
         (streamFinalSession envStreamEmpty "c" "hi" [] []),
       none) ∧
    (streamDoneMessage envStreamEmpty).content = "" ∧
    ¬ (streamDoneMessage envStreamEmpty).content = fallbackString ∧
    (streamFinalSession envStreamEmpty "c" "hi" [] []).messages =
      (getOrCreateChatSession envStreamEmpty.base.sessionNow
        envStreamEmpty.base.sessionTimestamp "c" []).1.messages
        ++ [mkUserMessage envStreamEmpty.base "hi" [], streamDoneMessage envStreamEmpty] :=
  sendMessageStream_no_fallback envStreamEmpty "c" "hi" [] []
    { provider := "openai", apiKey := "k", baseUrl := none, model := "m",
      temperature := none }
    "sys" rfl (Or.inl rfl) rfl rfl (by decide)

end December
